import Mathlib

/-!
Shallow embedding of the RDM command-line transaction driver
(`examples/ola-rdm.cpp`): the `RDMController` response state machine
(`HandleResponse`, `HandleAckResponse`, `FetchQueuedMessage`,
`PrintRemainingMessages`) and the request pipeline
(`PerformRequestAndWait`).  External collaborators (the PID store helper,
the message codec, the client connection and the select-server reactor)
are embedded as a record of functions and as an explicit action trace, per
their interface contract.
-/

namespace OlaRdm

/-! Constants from the external OLA headers (`ola/rdm/RDMEnums.h`,
`ola/base/SysExits.h`).  Only their distinctness matters to the driver. -/

def RDM_COMPLETED_OK : Nat := 0

def RDM_WAS_BROADCAST : Nat := 1

def RDM_ACK : Nat := 0

def RDM_ACK_TIMER : Nat := 1

def RDM_NACK_REASON : Nat := 2

def PID_QUEUED_MESSAGE : Nat := 0x0020

def PID_STATUS_MESSAGES : Nat := 0x0030

def EXIT_OK : Nat := 0

def EXIT_USAGE : Nat := 64

/-- A unique device identifier (`ola::rdm::UID`): manufacturer id plus
device id. -/
structure UID where
  manufacturer_id : Nat
  device_id : Nat
deriving DecidableEq, Repr

/-- The raw completion status delivered to the response callback
(`ola::rdm::ResponseStatus`).  `error` is the transport-level error text
(empty when there was none); `ack_timer` is the value of `AckTimer()` and
`nack_reason` the value of `NackReason()`. -/
structure ResponseStatus where
  error : String
  response_code : Nat
  response_type : Nat
  pid_value : Nat
  set_command : Bool
  message_count : Nat
  ack_timer : Nat
  nack_reason : Nat
deriving DecidableEq, Repr

/-- A parameter descriptor (`ola::rdm::PidDescriptor`), with the four
request/response schemas.  Schemas are opaque handles consumed by the
codec functions of `PidHelper`. -/
structure PidDescriptor where
  name : String
  value : Nat
  get_request : Option Nat
  set_request : Option Nat
  get_response : Option Nat
  set_response : Option Nat
deriving DecidableEq, Repr

/-- The external PID store helper and message codec
(`ola::rdm::PidStoreHelper`), embedded as a record of pure functions per
the interface contract.  Messages are modelled as `List Nat`. -/
structure PidHelper where
  get_descriptor_by_name : String → Nat → Option PidDescriptor
  get_descriptor_by_value : Nat → Nat → Option PidDescriptor
  build_message : Nat → List String → Option (List Nat)
  serialize_message : List Nat → List Nat
  deserialize_message : Nat → List Nat → Option (List Nat)
  pretty_print_message : Nat → Bool → Nat → List Nat → String
  schema_as_string : Nat → String

/-- The driver's `pending_request_t` record: {universe, uid (borrowed),
sub-device, pid value of the original request}.  The C++ field `universe`
is `universe_id` here (`universe` is reserved in Lean). -/
structure PendingRequest where
  universe_id : Nat
  uid : UID
  sub_device : Nat
  pid_value : Nat
deriving DecidableEq, Repr

/-- A line of user-visible output produced by the driver (stdout/stderr
writes and OLA_WARN logs). -/
inductive Output where
  | transport_error (msg : String)
  | response_code_error (code : Nat)
  | empty_status_messages
  | nacked (reason : Nat)
  | unknown_response_type (t : Nat)
  | warn_unknown_pid (pid : Nat)
  | warn_unknown_response (is_set : Bool) (name : String)
  | warn_cannot_inflate
  | pretty_printed (text : String)
  | messages_remaining (n : Nat)
deriving DecidableEq, Repr

/-- An effect performed by the response handler on its collaborators:
printing, registering the one-shot ack-timer callback
(`RegisterSingleTimeout` with `FetchQueuedMessage` as the callback),
issuing a queued-message fetch (`FetchQueuedMessage`), or terminating the
select server (`Terminate`). -/
inductive Action where
  | print (o : Output)
  | register_single_timeout (delay : Nat)
  | fetch_queued_message
  | terminate
deriving DecidableEq, Repr

/-- A request submitted on the client connection (`RDMGet`/`RDMSet`
arguments). -/
structure RdmRequest where
  is_set : Bool
  universe_id : Nat
  uid : UID
  sub_device : Nat
  pid : Nat
  param_data : List Nat
deriving DecidableEq, Repr

/-- `RDMController::FetchQueuedMessage`: re-issues `RDMGet` for
`PID_QUEUED_MESSAGE` with the fixed one-byte payload `status_type = 4`,
reusing the recorded pending request.  It reads `m_pending_request` and
does not modify it. -/
def FetchQueuedMessage (pending : PendingRequest) : RdmRequest :=
  { is_set := false
    universe_id := pending.universe_id
    uid := pending.uid
    sub_device := pending.sub_device
    pid := PID_QUEUED_MESSAGE
    param_data := [4] }

/-- `RDMController::PrintRemainingMessages`: prints the remaining-message
count exactly when it is non-zero. -/
def PrintRemainingMessages (message_count : Nat) : List Output :=
  if message_count = 0 then [] else [Output.messages_remaining message_count]

/-- `RDMController::HandleAckResponse`: resolve the descriptor for the
response pid, pick the set/get response schema, deserialize the payload
and pretty-print it; each failure is a warning only. -/
def HandleAckResponse (h : PidHelper) (pending : PendingRequest)
    (manufacturer_id : Nat) (is_set : Bool) (pid : Nat)
    (rdm_data : List Nat) : List Output :=
  match h.get_descriptor_by_value pid pending.uid.manufacturer_id with
  | none => [Output.warn_unknown_pid pid]
  | some pd =>
    match (if is_set then pd.set_response else pd.get_response) with
    | none => [Output.warn_unknown_response is_set pd.name]
    | some descriptor =>
      match h.deserialize_message descriptor rdm_data with
      | none => [Output.warn_cannot_inflate]
      | some m =>
        [Output.pretty_printed
          (h.pretty_print_message manufacturer_id is_set pid m)]

/-- `RDMController::HandleResponse`: the response state machine, branch
for branch.  The result is the ordered list of effects the handler
performs for this one callback invocation. -/
def HandleResponse (h : PidHelper) (pending : PendingRequest)
    (rs : ResponseStatus) (rdm_data : List Nat) : List Action :=
  if rs.error ≠ "" then
    [Action.print (Output.transport_error rs.error), Action.terminate]
  else if rs.response_code = RDM_WAS_BROADCAST then
    [Action.terminate]
  else if rs.response_code ≠ RDM_COMPLETED_OK then
    [Action.print (Output.response_code_error rs.response_code),
     Action.terminate]
  else if rs.response_type = RDM_ACK_TIMER then
    [Action.register_single_timeout rs.ack_timer]
  else if rs.response_type = RDM_ACK then
    (if rs.pid_value = pending.pid_value ∨
        pending.pid_value = PID_QUEUED_MESSAGE then
      ((HandleAckResponse h pending pending.uid.manufacturer_id
          rs.set_command rs.pid_value rdm_data) ++
        PrintRemainingMessages rs.message_count).map Action.print ++
        [Action.terminate]
    else if rs.pid_value ≠ PID_STATUS_MESSAGES ∨ rdm_data.length ≠ 0 then
      [Action.fetch_queued_message]
    else
      ((Output.empty_status_messages ::
          PrintRemainingMessages rs.message_count).map Action.print) ++
        [Action.terminate])
  else if rs.response_type = RDM_NACK_REASON then
    ((Output.nacked rs.nack_reason ::
        PrintRemainingMessages rs.message_count).map Action.print) ++
      [Action.terminate]
  else
    ((Output.unknown_response_type rs.response_type ::
        PrintRemainingMessages rs.message_count).map Action.print) ++
      [Action.terminate]

/-- The observable state of one transaction: the pending-request record,
whether and how often `Terminate` ran, the follow-up requests issued on
the connection, the registered one-shot timer delays, the output printed,
and how many responses were consumed. -/
@[ext]
structure TransState where
  pending : PendingRequest
  terminated : Bool
  terminate_calls : Nat
  issued : List RdmRequest
  timers : List Nat
  outputs : List Output
  consumed : Nat
deriving DecidableEq, Repr

/-- Interpret one handler effect against the transaction state.  A
registered one-shot timer's callback is `FetchQueuedMessage`; on this
single-threaded reactor it fires before the next response arrives (the
next response answers the very request the callback issues), so the
fetch it issues is recorded here. -/
def applyAction (s : TransState) : Action → TransState
  | Action.print o => { s with outputs := s.outputs ++ [o] }
  | Action.register_single_timeout d =>
      { s with timers := s.timers ++ [d]
               issued := s.issued ++ [FetchQueuedMessage s.pending] }
  | Action.fetch_queued_message =>
      { s with issued := s.issued ++ [FetchQueuedMessage s.pending] }
  | Action.terminate =>
      { s with terminated := true
               terminate_calls := s.terminate_calls + 1 }

def applyActions (s : TransState) (acts : List Action) : TransState :=
  acts.foldl applyAction s

/-- Drive the transaction over a script of environment responses, one
response per outstanding request, exactly as the select server delivers
them: each response is handled by `HandleResponse`; once `Terminate` has
run the loop has exited and no further callback is delivered. -/
def runScript (h : PidHelper) (s : TransState) :
    List (ResponseStatus × List Nat) → TransState
  | [] => s
  | (rs, rdm_data) :: rest =>
      if s.terminated then s
      else
        runScript h
          (applyActions { s with consumed := s.consumed + 1 }
            (HandleResponse h s.pending rs rdm_data)) rest

def initState (pending : PendingRequest) : TransState :=
  { pending := pending
    terminated := false
    terminate_calls := 0
    issued := []
    timers := []
    outputs := []
    consumed := 0 }

/-- Modelled from the spec: the external string utility (not part of this
repository's sources) that parses a parameter id written in hexadecimal
with a `0x` marker into a 16-bit value. -/
def prefixedHexStringToInt (s : String) : Option Nat :=
  match s.data with
  | '0' :: 'x' :: rest =>
      if rest ≠ [] ∧ rest.all (fun c => c.isDigit ||
          (('a' ≤ c && c ≤ 'f') || ('A' ≤ c && c ≤ 'F'))) then
        let v := rest.foldl (fun acc c =>
          acc * 16 +
            (if c.isDigit then c.toNat - '0'.toNat
             else if 'a' ≤ c && c ≤ 'f' then c.toNat - 'a'.toNat + 10
             else c.toNat - 'A'.toNat + 10)) 0
        if v < 65536 then some v else none
      else none
  | _ => none

/-- Modelled from the spec: the external string utility (not part of this
repository's sources) that parses a decimal parameter id into a 16-bit
value. -/
def stringToInt (s : String) : Option Nat :=
  if s.data ≠ [] ∧ s.data.all Char.isDigit then
    let v := s.data.foldl (fun acc c => acc * 10 + (c.toNat - '0'.toNat)) 0
    if v < 65536 then some v else none
  else none

/-- The numeric fallback of the descriptor lookup:
`PrefixedHexStringToInt(pid_name) || StringToInt(pid_name)` with C++
short-circuit evaluation. -/
def resolveParamValue (pid_name : String) : Option Nat :=
  match prefixedHexStringToInt pid_name with
  | some v => some v
  | none => stringToInt pid_name

/-- The descriptor-resolution prelude of
`RDMController::PerformRequestAndWait`: symbolic lookup first; only when
it fails, parse the name numerically and look the id up. -/
def getPidDescriptor (h : PidHelper) (pid_name : String)
    (manufacturer_id : Nat) : Option PidDescriptor :=
  match h.get_descriptor_by_name pid_name manufacturer_id with
  | some pd => some pd
  | none =>
    match resolveParamValue pid_name with
    | some pid_value => h.get_descriptor_by_value pid_value manufacturer_id
    | none => none

/-- The possible outcomes of the request-building phase of
`PerformRequestAndWait`, before the event loop runs.  The payload of each
failure constructor is exactly the report the tool prints. -/
inductive RequestOutcome where
  | unknown_pid (pid_name : String)
  | command_not_supported (is_set : Bool) (pid_name : String)
  | build_failed (schema_text : String)
  | submitted (req : RdmRequest) (pending : PendingRequest)
deriving DecidableEq, Repr

/-- The request-building phase of `RDMController::PerformRequestAndWait`:
resolve the descriptor, select the get/set request schema, build the
message, record the pending request and submit `RDMGet`/`RDMSet`. -/
def PerformRequest (h : PidHelper) (universe_id : Nat) (uid : UID)
    (sub_device : Nat) (pid_name : String) (is_set : Bool)
    (inputs : List String) : RequestOutcome :=
  match getPidDescriptor h pid_name uid.manufacturer_id with
  | none => RequestOutcome.unknown_pid pid_name
  | some pd =>
    match (if is_set then pd.set_request else pd.get_request) with
    | none => RequestOutcome.command_not_supported is_set pid_name
    | some descriptor =>
      match h.build_message descriptor inputs with
      | none => RequestOutcome.build_failed (h.schema_as_string descriptor)
      | some message =>
        RequestOutcome.submitted
          { is_set := is_set
            universe_id := universe_id
            uid := uid
            sub_device := sub_device
            pid := pd.value
            param_data := h.serialize_message message }
          { universe_id := universe_id
            uid := uid
            sub_device := sub_device
            pid_value := pd.value }

/-- `RDMController::PerformRequestAndWait` end to end: on a build-phase
failure the usage status is returned and no request ever reaches the
connection (`none`); on success the request is submitted, the event loop
runs the transaction over the response script, and after `Run()` returns
the function returns `ola::EXIT_OK` unconditionally. -/
def PerformRequestAndWait (h : PidHelper) (universe_id : Nat) (uid : UID)
    (sub_device : Nat) (pid_name : String) (is_set : Bool)
    (inputs : List String) (script : List (ResponseStatus × List Nat)) :
    Nat × Option TransState :=
  match PerformRequest h universe_id uid sub_device pid_name is_set inputs with
  | RequestOutcome.submitted _ pending =>
      (EXIT_OK, some (runScript h (initState pending) script))
  | _ => (EXIT_USAGE, none)

/-! Response-script constructors used by concrete test runs. -/

def ackTimerResponse (delay : Nat) : ResponseStatus :=
  { error := ""
    response_code := RDM_COMPLETED_OK
    response_type := RDM_ACK_TIMER
    pid_value := 0
    set_command := false
    message_count := 0
    ack_timer := delay
    nack_reason := 0 }

def ackResponse (pid : Nat) (message_count : Nat) : ResponseStatus :=
  { error := ""
    response_code := RDM_COMPLETED_OK
    response_type := RDM_ACK
    pid_value := pid
    set_command := false
    message_count := message_count
    ack_timer := 0
    nack_reason := 0 }

def broadcastResponse : ResponseStatus :=
  { error := ""
    response_code := RDM_WAS_BROADCAST
    response_type := RDM_ACK
    pid_value := 0
    set_command := false
    message_count := 0
    ack_timer := 0
    nack_reason := 0 }

def nackResponse (reason : Nat) (message_count : Nat) : ResponseStatus :=
  { error := ""
    response_code := RDM_COMPLETED_OK
    response_type := RDM_NACK_REASON
    pid_value := 0
    set_command := false
    message_count := message_count
    ack_timer := 0
    nack_reason := reason }

def transportErrorResponse (msg : String) : ResponseStatus :=
  { error := msg
    response_code := RDM_COMPLETED_OK
    response_type := RDM_ACK
    pid_value := 0
    set_command := false
    message_count := 0
    ack_timer := 0
    nack_reason := 0 }

/-- A concrete pid-store/codec instance for closed test runs: every
numeric pid resolves, schemas are handles 0-3, deserialization echoes the
bytes. -/
def hTest : PidHelper :=
  { get_descriptor_by_name := fun _ _ => none
    get_descriptor_by_value := fun pid _ =>
      some { name := "pid"
             value := pid
             get_request := some 0
             set_request := some 1
             get_response := some 2
             set_response := some 3 }
    build_message := fun _ args => some (args.map String.length)
    serialize_message := fun m => m
    deserialize_message := fun _ bytes => some bytes
    pretty_print_message := fun _ _ pid _ => "msg " ++ toString pid
    schema_as_string := fun d => "schema " ++ toString d }

/-- A pid-store variant whose codec rejects every argument list. -/
def hFailBuild : PidHelper :=
  { hTest with build_message := fun _ _ => none }

/-- A pid-store variant that knows no parameter at all. -/
def hNoPids : PidHelper :=
  { hTest with
      get_descriptor_by_name := fun _ _ => none
      get_descriptor_by_value := fun _ _ => none }

/-- A pid-store variant whose symbolic lookup always succeeds. -/
def hNamed : PidHelper :=
  { hTest with
      get_descriptor_by_name := fun _ _ =>
        some { name := "named"
               value := 7
               get_request := some 0
               set_request := some 1
               get_response := some 2
               set_response := some 3 } }

/-- The classified outcome of one response, one constructor per branch of
`HandleResponse` (the `ResponseClassifier` of the specification). -/
inductive OutcomeClass where
  | transport_error
  | broadcast
  | protocol_error
  | ack_timer
  | authoritative_ack
  | queue_signal_ack
  | empty_status_ack
  | nack
  | unknown_type
deriving DecidableEq, Repr

/-- Classify a response exactly along the branch structure of
`HandleResponse`. -/
def classifyResponse (pending : PendingRequest) (rs : ResponseStatus)
    (rdm_data : List Nat) : OutcomeClass :=
  if rs.error ≠ "" then OutcomeClass.transport_error
  else if rs.response_code = RDM_WAS_BROADCAST then OutcomeClass.broadcast
  else if rs.response_code ≠ RDM_COMPLETED_OK then OutcomeClass.protocol_error
  else if rs.response_type = RDM_ACK_TIMER then OutcomeClass.ack_timer
  else if rs.response_type = RDM_ACK then
    (if rs.pid_value = pending.pid_value ∨
        pending.pid_value = PID_QUEUED_MESSAGE then
      OutcomeClass.authoritative_ack
    else if rs.pid_value ≠ PID_STATUS_MESSAGES ∨ rdm_data.length ≠ 0 then
      OutcomeClass.queue_signal_ack
    else OutcomeClass.empty_status_ack)
  else if rs.response_type = RDM_NACK_REASON then OutcomeClass.nack
  else OutcomeClass.unknown_type

/-- The common shape of every terminal branch of `HandleResponse`: print
some output lines, then call `Terminate` once. -/
def terminalActions (outs : List Output) : List Action :=
  outs.map Action.print ++ [Action.terminate]

/-- Count of `Terminate` calls in a handler effect list. -/
def terminateCount : List Action → Nat
  | [] => 0
  | Action.terminate :: rest => terminateCount rest + 1
  | _ :: rest => terminateCount rest

/-- A drain-cycle response: a completed ACK carrying a parameter other
than the pending one, with a non-empty payload. -/
def noiseAck (pending : PendingRequest) (r : ResponseStatus × List Nat) :
    Prop :=
  r.1.error = "" ∧ r.1.response_code = RDM_COMPLETED_OK ∧
  r.1.response_type = RDM_ACK ∧ r.1.pid_value ≠ pending.pid_value ∧
  r.2 ≠ []

/-! Basic lemmas about the handler and the transaction run. -/

theorem HandleResponse_eq_classify (h : PidHelper) (pending : PendingRequest)
    (rs : ResponseStatus) (rdm_data : List Nat) :
    HandleResponse h pending rs rdm_data =
      match classifyResponse pending rs rdm_data with
      | OutcomeClass.transport_error =>
          terminalActions [Output.transport_error rs.error]
      | OutcomeClass.broadcast => terminalActions []
      | OutcomeClass.protocol_error =>
          terminalActions [Output.response_code_error rs.response_code]
      | OutcomeClass.ack_timer =>
          [Action.register_single_timeout rs.ack_timer]
      | OutcomeClass.authoritative_ack =>
          terminalActions
            (HandleAckResponse h pending pending.uid.manufacturer_id
              rs.set_command rs.pid_value rdm_data ++
             PrintRemainingMessages rs.message_count)
      | OutcomeClass.queue_signal_ack => [Action.fetch_queued_message]
      | OutcomeClass.empty_status_ack =>
          terminalActions
            (Output.empty_status_messages ::
              PrintRemainingMessages rs.message_count)
      | OutcomeClass.nack =>
          terminalActions
            (Output.nacked rs.nack_reason ::
              PrintRemainingMessages rs.message_count)
      | OutcomeClass.unknown_type =>
          terminalActions
            (Output.unknown_response_type rs.response_type ::
              PrintRemainingMessages rs.message_count)
    := by
  unfold HandleResponse classifyResponse terminalActions
  split_ifs <;> simp

theorem applyActions_nil (s : TransState) : applyActions s [] = s := rfl

theorem applyActions_cons (s : TransState) (a : Action) (acts : List Action) :
    applyActions s (a :: acts) = applyActions (applyAction s a) acts := rfl

theorem applyActions_append (s : TransState) (l1 l2 : List Action) :
    applyActions s (l1 ++ l2) = applyActions (applyActions s l1) l2 :=
  List.foldl_append _ _ _ _

theorem applyActions_terminalActions (s : TransState) (outs : List Output) :
    applyActions s (terminalActions outs) =
      { s with outputs := s.outputs ++ outs
               terminated := true
               terminate_calls := s.terminate_calls + 1 } := by
  induction outs generalizing s with
  | nil => simp [terminalActions, applyActions, applyAction]
  | cons o rest ih =>
      show applyActions (applyAction s (Action.print o))
        (terminalActions rest) = _
      rw [ih]
      simp [applyAction]

theorem applyActions_pending (s : TransState) (acts : List Action) :
    (applyActions s acts).pending = s.pending := by
  induction acts generalizing s with
  | nil => rfl
  | cons a rest ih =>
      rw [applyActions_cons, ih]
      cases a <;> rfl

theorem runScript_frozen (h : PidHelper) (s : TransState)
    (script : List (ResponseStatus × List Nat))
    (hterm : s.terminated = true) :
    runScript h s script = s := by
  cases script with
  | nil => rfl
  | cons r rest =>
      obtain ⟨rs, d⟩ := r
      simp [runScript, hterm]

theorem runScript_cons (h : PidHelper) (s : TransState) (rs : ResponseStatus)
    (d : List Nat) (rest : List (ResponseStatus × List Nat))
    (hterm : s.terminated = false) :
    runScript h s ((rs, d) :: rest) =
      runScript h
        (applyActions { s with consumed := s.consumed + 1 }
          (HandleResponse h s.pending rs d)) rest := by
  simp [runScript, hterm]

theorem runScript_append (h : PidHelper) (s : TransState)
    (l1 l2 : List (ResponseStatus × List Nat)) :
    runScript h s (l1 ++ l2) = runScript h (runScript h s l1) l2 := by
  induction l1 generalizing s with
  | nil => rfl
  | cons r rest ih =>
      obtain ⟨rs, d⟩ := r
      rw [List.cons_append]
      cases hterm : s.terminated with
      | true =>
          rw [runScript_frozen h s _ hterm, runScript_frozen h s _ hterm,
            runScript_frozen h s _ hterm]
      | false =>
          rw [runScript_cons h s rs d _ hterm, runScript_cons h s rs d _ hterm,
            ih]

theorem runScript_pending (h : PidHelper)
    (script : List (ResponseStatus × List Nat)) :
    ∀ s : TransState, (runScript h s script).pending = s.pending := by
  induction script with
  | nil => intro s; rfl
  | cons r rest ih =>
      intro s
      obtain ⟨rs, d⟩ := r
      cases hterm : s.terminated with
      | true => rw [runScript_frozen h s _ hterm]
      | false =>
          rw [runScript_cons h s rs d _ hterm, ih, applyActions_pending]

theorem runScript_terminal_step (h : PidHelper) (s : TransState)
    (rs : ResponseStatus) (d : List Nat)
    (rest : List (ResponseStatus × List Nat)) (outs : List Output)
    (hterm : s.terminated = false)
    (hr : HandleResponse h s.pending rs d = terminalActions outs) :
    runScript h s ((rs, d) :: rest) =
      { s with consumed := s.consumed + 1
               outputs := s.outputs ++ outs
               terminated := true
               terminate_calls := s.terminate_calls + 1 } := by
  rw [runScript_cons h s rs d rest hterm, hr, applyActions_terminalActions]
  exact runScript_frozen h _ rest rfl

/-! Branch lemmas: what `HandleResponse` does on each kind of response. -/

theorem broadcast_actions (h : PidHelper) (pending : PendingRequest)
    (rs : ResponseStatus) (d : List Nat) (he : rs.error = "")
    (hb : rs.response_code = RDM_WAS_BROADCAST) :
    HandleResponse h pending rs d = terminalActions [] := by
  simp [HandleResponse, terminalActions, he, hb]

theorem ack_timer_actions (h : PidHelper) (pending : PendingRequest)
    (rs : ResponseStatus) (d : List Nat) (he : rs.error = "")
    (hc : rs.response_code = RDM_COMPLETED_OK)
    (ht : rs.response_type = RDM_ACK_TIMER) :
    HandleResponse h pending rs d =
      [Action.register_single_timeout rs.ack_timer] := by
  simp [HandleResponse, he, hc, ht, RDM_COMPLETED_OK, RDM_WAS_BROADCAST,
    RDM_ACK_TIMER]

theorem authoritative_actions (h : PidHelper) (pending : PendingRequest)
    (rs : ResponseStatus) (d : List Nat) (he : rs.error = "")
    (hc : rs.response_code = RDM_COMPLETED_OK)
    (ht : rs.response_type = RDM_ACK)
    (hp : rs.pid_value = pending.pid_value ∨
      pending.pid_value = PID_QUEUED_MESSAGE) :
    HandleResponse h pending rs d =
      terminalActions
        (HandleAckResponse h pending pending.uid.manufacturer_id
          rs.set_command rs.pid_value d ++
         PrintRemainingMessages rs.message_count) := by
  simp [HandleResponse, terminalActions, he, hc, ht, hp, RDM_COMPLETED_OK,
    RDM_WAS_BROADCAST, RDM_ACK, RDM_ACK_TIMER]

theorem queue_signal_actions (h : PidHelper) (pending : PendingRequest)
    (rs : ResponseStatus) (d : List Nat) (he : rs.error = "")
    (hc : rs.response_code = RDM_COMPLETED_OK)
    (ht : rs.response_type = RDM_ACK)
    (hp : rs.pid_value ≠ pending.pid_value)
    (hq : pending.pid_value ≠ PID_QUEUED_MESSAGE)
    (hd : rs.pid_value ≠ PID_STATUS_MESSAGES ∨ d ≠ []) :
    HandleResponse h pending rs d = [Action.fetch_queued_message] := by
  rcases hd with hd | hd <;>
    simp [HandleResponse, he, hc, ht, hp, hq, hd, RDM_COMPLETED_OK,
      RDM_WAS_BROADCAST, RDM_ACK, RDM_ACK_TIMER]

theorem empty_status_actions (h : PidHelper) (pending : PendingRequest)
    (rs : ResponseStatus) (he : rs.error = "")
    (hc : rs.response_code = RDM_COMPLETED_OK)
    (ht : rs.response_type = RDM_ACK)
    (hp : rs.pid_value = PID_STATUS_MESSAGES)
    (hnp : rs.pid_value ≠ pending.pid_value)
    (hq : pending.pid_value ≠ PID_QUEUED_MESSAGE) :
    HandleResponse h pending rs [] =
      terminalActions
        (Output.empty_status_messages ::
          PrintRemainingMessages rs.message_count) := by
  have hnp2 : PID_STATUS_MESSAGES ≠ pending.pid_value := hp ▸ hnp
  simp [HandleResponse, terminalActions, he, hc, ht, hp, hnp2, hq,
    RDM_COMPLETED_OK, RDM_WAS_BROADCAST, RDM_ACK, RDM_ACK_TIMER]

theorem nack_actions (h : PidHelper) (pending : PendingRequest)
    (rs : ResponseStatus) (d : List Nat) (he : rs.error = "")
    (hc : rs.response_code = RDM_COMPLETED_OK)
    (ht : rs.response_type = RDM_NACK_REASON) :
    HandleResponse h pending rs d =
      terminalActions
        (Output.nacked rs.nack_reason ::
          PrintRemainingMessages rs.message_count) := by
  simp [HandleResponse, terminalActions, he, hc, ht, RDM_COMPLETED_OK,
    RDM_WAS_BROADCAST, RDM_ACK, RDM_ACK_TIMER, RDM_NACK_REASON]

theorem terminateCount_terminalActions (outs : List Output) :
    terminateCount (terminalActions outs) = 1 := by
  induction outs with
  | nil => rfl
  | cons o rest ih =>
      show terminateCount (terminalActions rest) = 1
      exact ih

theorem HandleResponse_shape (h : PidHelper) (pending : PendingRequest)
    (rs : ResponseStatus) (d : List Nat) :
    (∃ outs, HandleResponse h pending rs d = terminalActions outs) ∨
    HandleResponse h pending rs d =
      [Action.register_single_timeout rs.ack_timer] ∨
    HandleResponse h pending rs d = [Action.fetch_queued_message] := by
  unfold HandleResponse
  split_ifs
  · exact Or.inl ⟨[Output.transport_error rs.error], rfl⟩
  · exact Or.inl ⟨[], rfl⟩
  · exact Or.inl ⟨[Output.response_code_error rs.response_code], rfl⟩
  · exact Or.inr (Or.inl rfl)
  · exact Or.inl ⟨HandleAckResponse h pending pending.uid.manufacturer_id
      rs.set_command rs.pid_value d ++ PrintRemainingMessages rs.message_count,
      rfl⟩
  · exact Or.inr (Or.inr rfl)
  · exact Or.inl ⟨Output.empty_status_messages ::
      PrintRemainingMessages rs.message_count, rfl⟩
  · exact Or.inl ⟨Output.nacked rs.nack_reason ::
      PrintRemainingMessages rs.message_count, rfl⟩
  · exact Or.inl ⟨Output.unknown_response_type rs.response_type ::
      PrintRemainingMessages rs.message_count, rfl⟩

theorem terminateCount_nil : terminateCount [] = 0 := rfl

theorem terminateCount_terminate_cons (acts : List Action) :
    terminateCount (Action.terminate :: acts) = terminateCount acts + 1 := rfl

theorem terminateCount_print_cons (o : Output) (acts : List Action) :
    terminateCount (Action.print o :: acts) = terminateCount acts := rfl

theorem terminateCount_register_cons (d : Nat) (acts : List Action) :
    terminateCount (Action.register_single_timeout d :: acts) =
      terminateCount acts := rfl

theorem terminateCount_fetch_cons (acts : List Action) :
    terminateCount (Action.fetch_queued_message :: acts) =
      terminateCount acts := rfl

theorem terminateCount_append (l1 l2 : List Action) :
    terminateCount (l1 ++ l2) = terminateCount l1 + terminateCount l2 := by
  induction l1 with
  | nil => simp [terminateCount_nil]
  | cons a rest ih =>
      cases a <;>
        simp [terminateCount_terminate_cons, terminateCount_print_cons,
          terminateCount_register_cons, terminateCount_fetch_cons, ih] <;>
        omega

theorem terminateCount_map_print (outs : List Output) :
    terminateCount (outs.map Action.print) = 0 := by
  induction outs with
  | nil => rfl
  | cons o rest ih =>
      show terminateCount (Action.print o :: rest.map Action.print) = 0
      rw [terminateCount_print_cons]
      exact ih

theorem runScript_noise (h : PidHelper) (pending : PendingRequest)
    (noise : List (ResponseStatus × List Nat))
    (hq : pending.pid_value ≠ PID_QUEUED_MESSAGE) :
    ∀ s : TransState, s.pending = pending → s.terminated = false →
      (∀ r ∈ noise, noiseAck pending r) →
      runScript h s noise =
        { s with
            issued := s.issued ++
              noise.map (fun _ => FetchQueuedMessage pending)
            consumed := s.consumed + noise.length } := by
  induction noise with
  | nil =>
      intro s _ _ _
      show s = _
      ext <;> simp
  | cons r rest ih =>
      intro s hsp hst hn
      obtain ⟨rs, d⟩ := r
      obtain ⟨he, hc, ht, hp, hd⟩ := hn (rs, d) (List.mem_cons_self _ _)
      have hp2 : rs.pid_value ≠ s.pending.pid_value := by
        rw [hsp]; exact hp
      have hq2 : s.pending.pid_value ≠ PID_QUEUED_MESSAGE := by
        rw [hsp]; exact hq
      have step : applyActions { s with consumed := s.consumed + 1 }
          [Action.fetch_queued_message] =
          { s with consumed := s.consumed + 1
                   issued := s.issued ++ [FetchQueuedMessage s.pending] } :=
        rfl
      rw [runScript_cons h s rs d rest hst,
        queue_signal_actions h s.pending rs d he hc ht hp2 hq2 (Or.inr hd),
        step,
        ih _ (by simp [hsp]) (by simp [hst])
          (fun x hx => hn x (List.mem_cons_of_mem _ hx)),
        hsp]
      ext <;> simp [List.append_assoc] <;> omega

theorem runScript_terminate_once (h : PidHelper)
    (script : List (ResponseStatus × List Nat)) :
    ∀ s : TransState, s.terminated = false → s.terminate_calls = 0 →
      (runScript h s script).terminate_calls =
        (if (runScript h s script).terminated = true then 1 else 0) := by
  induction script with
  | nil =>
      intro s hst hsc
      show s.terminate_calls = if s.terminated = true then 1 else 0
      simp [hst, hsc]
  | cons r rest ih =>
      intro s hst hsc
      obtain ⟨rs, d⟩ := r
      rw [runScript_cons h s rs d rest hst]
      rcases HandleResponse_shape h s.pending rs d with ⟨outs, hsh⟩ | hsh | hsh <;>
        rw [hsh]
      · rw [applyActions_terminalActions, runScript_frozen h _ rest rfl]
        simp [hsc]
      · exact ih _ (by simp [applyActions, applyAction, hst])
          (by simp [applyActions, applyAction, hsc])
      · exact ih _ (by simp [applyActions, applyAction, hst])
          (by simp [applyActions, applyAction, hsc])

theorem runScript_terminal_fields (h : PidHelper) (s : TransState)
    (rs : ResponseStatus) (d : List Nat) (outs : List Output)
    (hterm : s.terminated = false)
    (hr : HandleResponse h s.pending rs d = terminalActions outs)
    (rest : List (ResponseStatus × List Nat)) :
    (runScript h s ((rs, d) :: rest)).issued = s.issued ∧
    (runScript h s ((rs, d) :: rest)).terminate_calls =
      s.terminate_calls + 1 ∧
    (runScript h s ((rs, d) :: rest)).terminated = true ∧
    (runScript h s ((rs, d) :: rest)).consumed = s.consumed + 1 ∧
    (runScript h s ((rs, d) :: rest)).outputs = s.outputs ++ outs ∧
    (runScript h s ((rs, d) :: rest)).timers = s.timers := by
  rw [runScript_terminal_step h s rs d rest outs hterm hr]
  exact ⟨rfl, rfl, rfl, rfl, rfl, rfl⟩

/-! Claim theorems. -/

/-- C10: the `PendingRequest` record written at transaction start is
mutated only when a follow-up queued-message fetch is issued — and in
fact `FetchQueuedMessage` only reads it, so over any response script the
run leaves all four fields (universe, uid reference, sub-device,
parameter value) exactly as recorded at transaction start. -/
theorem c10_pending_request_frame (h : PidHelper) (pending : PendingRequest)
    (script : List (ResponseStatus × List Nat)) :
    (runScript h (initState pending) script).pending = pending ∧
    (runScript h (initState pending) script).pending.universe_id =
      pending.universe_id ∧
    (runScript h (initState pending) script).pending.uid = pending.uid ∧
    (runScript h (initState pending) script).pending.sub_device =
      pending.sub_device ∧
    (runScript h (initState pending) script).pending.pid_value =
      pending.pid_value := by
  rw [runScript_pending h script (initState pending)]
  exact ⟨rfl, rfl, rfl, rfl, rfl⟩

/-- C4: for every single response, the handler calls `Terminate` exactly
once when the classified outcome is terminal (transport error, broadcast,
protocol error, authoritative ack, empty status-messages ack, nack,
unknown type) and zero times on the ack-timer and queue-signal branches;
and over a whole transaction run, `Terminate` has been called exactly
once when the loop has terminated, and zero times before. -/
theorem c4_terminate_exactly_once (h : PidHelper) (pending : PendingRequest)
    (rs : ResponseStatus) (rdm_data : List Nat)
    (script : List (ResponseStatus × List Nat)) :
    terminateCount (HandleResponse h pending rs rdm_data) =
      (if classifyResponse pending rs rdm_data = OutcomeClass.ack_timer ∨
          classifyResponse pending rs rdm_data =
            OutcomeClass.queue_signal_ack
        then 0 else 1) ∧
    (runScript h (initState pending) script).terminate_calls =
      (if (runScript h (initState pending) script).terminated = true
        then 1 else 0) := by
  constructor
  · unfold HandleResponse classifyResponse
    split_ifs <;>
      simp_all [terminateCount_nil, terminateCount_terminate_cons,
        terminateCount_print_cons, terminateCount_register_cons,
        terminateCount_fetch_cons, terminateCount_append,
        terminateCount_map_print]
  · exact runScript_terminate_once h script (initState pending) rfl rfl

/-- C5: when the very first response is an ACK carrying
`PID_STATUS_MESSAGES` with an empty payload and the originally requested
parameter is neither `PID_STATUS_MESSAGES` nor `PID_QUEUED_MESSAGE`, the
driver prints the empty-status-messages notice and terminates without
ever issuing a queued-message fetch. -/
theorem c5_empty_status_first_response (h : PidHelper)
    (pending : PendingRequest) (rs : ResponseStatus)
    (rest : List (ResponseStatus × List Nat))
    (hs1 : pending.pid_value ≠ PID_STATUS_MESSAGES)
    (hs2 : pending.pid_value ≠ PID_QUEUED_MESSAGE)
    (he : rs.error = "") (hc : rs.response_code = RDM_COMPLETED_OK)
    (ht : rs.response_type = RDM_ACK)
    (hp : rs.pid_value = PID_STATUS_MESSAGES) :
    (runScript h (initState pending) ((rs, []) :: rest)).outputs =
      Output.empty_status_messages ::
        PrintRemainingMessages rs.message_count ∧
    (runScript h (initState pending) ((rs, []) :: rest)).issued = [] ∧
    (runScript h (initState pending) ((rs, []) :: rest)).timers = [] ∧
    (runScript h (initState pending) ((rs, []) :: rest)).terminated = true ∧
    (runScript h (initState pending) ((rs, []) :: rest)).terminate_calls
      = 1 ∧
    (runScript h (initState pending) ((rs, []) :: rest)).consumed = 1 := by
  have hnp : rs.pid_value ≠ pending.pid_value := by
    rw [hp]; exact fun hh => hs1 hh.symm
  have hr := empty_status_actions h pending rs he hc ht hp hnp hs2
  obtain ⟨h1, h2, h3, h4, h5, h6⟩ :=
    runScript_terminal_fields h (initState pending) rs [] _ rfl hr rest
  exact ⟨by rw [h5]; rfl, by rw [h1]; rfl, by rw [h6]; rfl, h3,
    by rw [h2]; rfl, by rw [h4]; rfl⟩

theorem c5_empty_status_witness :
    ((0x10 : Nat) ≠ PID_STATUS_MESSAGES) ∧
    ((0x10 : Nat) ≠ PID_QUEUED_MESSAGE) ∧
    (runScript hTest
        (initState { universe_id := 1
                     uid := { manufacturer_id := 2, device_id := 3 }
                     sub_device := 0
                     pid_value := 0x10 })
        [(ackResponse PID_STATUS_MESSAGES 0, [])]).outputs =
      Output.empty_status_messages :: PrintRemainingMessages 0 ∧
    (runScript hTest
        (initState { universe_id := 1
                     uid := { manufacturer_id := 2, device_id := 3 }
                     sub_device := 0
                     pid_value := 0x10 })
        [(ackResponse PID_STATUS_MESSAGES 0, [])]).issued = [] ∧
    (runScript hTest
        (initState { universe_id := 1
                     uid := { manufacturer_id := 2, device_id := 3 }
                     sub_device := 0
                     pid_value := 0x10 })
        [(ackResponse PID_STATUS_MESSAGES 0, [])]).terminate_calls = 1 := by
  have hmain := c5_empty_status_first_response hTest
    { universe_id := 1
      uid := { manufacturer_id := 2, device_id := 3 }
      sub_device := 0
      pid_value := 0x10 }
    (ackResponse PID_STATUS_MESSAGES 0) [] (by decide) (by decide)
    rfl rfl rfl rfl
  exact ⟨by decide, by decide, hmain.1, hmain.2.1, hmain.2.2.2.2.1⟩

/-- C6: a response classified as broadcast (no transport error, response
code `RDM_WAS_BROADCAST`) terminates the event loop; the transaction ends
with the success status `EXIT_OK` and produces no output at all — no
pretty-printed data and no remaining-message count. -/
theorem c6_broadcast_terminates_silently (h : PidHelper)
    (universe_id : Nat) (uid : UID) (sub_device : Nat) (pid_name : String)
    (is_set : Bool) (inputs : List String) (req : RdmRequest)
    (pending : PendingRequest) (rs : ResponseStatus) (d : List Nat)
    (rest : List (ResponseStatus × List Nat))
    (hsub : PerformRequest h universe_id uid sub_device pid_name is_set
        inputs = RequestOutcome.submitted req pending)
    (he : rs.error = "") (hb : rs.response_code = RDM_WAS_BROADCAST) :
    PerformRequestAndWait h universe_id uid sub_device pid_name is_set
        inputs ((rs, d) :: rest) =
      (EXIT_OK, some (runScript h (initState pending) ((rs, d) :: rest))) ∧
    (runScript h (initState pending) ((rs, d) :: rest)).outputs = [] ∧
    (runScript h (initState pending) ((rs, d) :: rest)).issued = [] ∧
    (runScript h (initState pending) ((rs, d) :: rest)).terminated = true ∧
    (runScript h (initState pending) ((rs, d) :: rest)).terminate_calls
      = 1 ∧
    (runScript h (initState pending) ((rs, d) :: rest)).consumed = 1 := by
  have hr := broadcast_actions h pending rs d he hb
  obtain ⟨h1, h2, h3, h4, h5, _⟩ :=
    runScript_terminal_fields h (initState pending) rs d [] rfl hr rest
  refine ⟨by simp [PerformRequestAndWait, hsub], by rw [h5]; rfl,
    by rw [h1]; rfl, h3, by rw [h2]; rfl, by rw [h4]; rfl⟩

theorem c6_broadcast_witness :
    PerformRequest hTest 1 { manufacturer_id := 2, device_id := 3 } 0
        "42" false [] =
      RequestOutcome.submitted
        { is_set := false
          universe_id := 1
          uid := { manufacturer_id := 2, device_id := 3 }
          sub_device := 0
          pid := 42
          param_data := [] }
        { universe_id := 1
          uid := { manufacturer_id := 2, device_id := 3 }
          sub_device := 0
          pid_value := 42 } ∧
    PerformRequestAndWait hTest 1 { manufacturer_id := 2, device_id := 3 }
        0 "42" false [] [(broadcastResponse, [])] =
      (EXIT_OK, some (runScript hTest
        (initState { universe_id := 1
                     uid := { manufacturer_id := 2, device_id := 3 }
                     sub_device := 0
                     pid_value := 42 }) [(broadcastResponse, [])])) ∧
    (runScript hTest
        (initState { universe_id := 1
                     uid := { manufacturer_id := 2, device_id := 3 }
                     sub_device := 0
                     pid_value := 42 }) [(broadcastResponse, [])]).outputs
      = [] := by
  have hsub : PerformRequest hTest 1 { manufacturer_id := 2, device_id := 3 }
      0 "42" false [] =
      RequestOutcome.submitted
        { is_set := false
          universe_id := 1
          uid := { manufacturer_id := 2, device_id := 3 }
          sub_device := 0
          pid := 42
          param_data := [] }
        { universe_id := 1
          uid := { manufacturer_id := 2, device_id := 3 }
          sub_device := 0
          pid_value := 42 } := by decide
  have hmain := c6_broadcast_terminates_silently hTest 1
    { manufacturer_id := 2, device_id := 3 } 0 "42" false [] _ _
    broadcastResponse [] [] hsub rfl rfl
  exact ⟨hsub, hmain.1, hmain.2.1⟩

/-- C7: when the message codec cannot build a message from the argument
list against the resolved request schema, the driver reports the
expected-argument schema text, returns the usage-error status, and never
submits any request on the connection. -/
theorem c7_build_failure_no_submission (h : PidHelper) (universe_id : Nat)
    (uid : UID) (sub_device : Nat) (pid_name : String) (is_set : Bool)
    (inputs : List String) (pd : PidDescriptor) (sch : Nat)
    (hres : getPidDescriptor h pid_name uid.manufacturer_id = some pd)
    (hsch : (if is_set then pd.set_request else pd.get_request) = some sch)
    (hbuild : h.build_message sch inputs = none) :
    PerformRequest h universe_id uid sub_device pid_name is_set inputs =
      RequestOutcome.build_failed (h.schema_as_string sch) ∧
    ∀ script, PerformRequestAndWait h universe_id uid sub_device pid_name
        is_set inputs script = (EXIT_USAGE, none) := by
  have h1 : PerformRequest h universe_id uid sub_device pid_name is_set
      inputs = RequestOutcome.build_failed (h.schema_as_string sch) := by
    simp [PerformRequest, hres, hsch, hbuild]
  exact ⟨h1, fun script => by simp [PerformRequestAndWait, h1]⟩

theorem c7_build_failure_witness :
    getPidDescriptor hFailBuild "42" 2 =
      some { name := "pid"
             value := 42
             get_request := some 0
             set_request := some 1
             get_response := some 2
             set_response := some 3 } ∧
    hFailBuild.build_message 0 ["x"] = none ∧
    PerformRequest hFailBuild 1 { manufacturer_id := 2, device_id := 3 } 0
        "42" false ["x"] =
      RequestOutcome.build_failed (hFailBuild.schema_as_string 0) ∧
    PerformRequestAndWait hFailBuild 1
        { manufacturer_id := 2, device_id := 3 } 0 "42" false ["x"]
        [(broadcastResponse, [])] = (EXIT_USAGE, none) := by
  have hmain := c7_build_failure_no_submission hFailBuild 1
    { manufacturer_id := 2, device_id := 3 } 0 "42" false ["x"]
    { name := "pid"
      value := 42
      get_request := some 0
      set_request := some 1
      get_response := some 2
      set_response := some 3 } 0 (by decide) rfl rfl
  exact ⟨by decide, rfl, hmain.1, hmain.2 [(broadcastResponse, [])]⟩

/-- C9: `PerformRequestAndWait` resolves the parameter descriptor by
symbolic name first; only when that lookup fails does it parse the name
as a prefixed-hexadecimal or decimal numeric id and resolve by id; and
when resolution fails altogether it reports the unknown parameter,
returns the usage-error status, and submits nothing on the
connection. -/
theorem c9_descriptor_resolution_order (h : PidHelper) (pid_name : String)
    (mfr : Nat) (universe_id : Nat) (uid : UID) (sub_device : Nat)
    (is_set : Bool) (inputs : List String) :
    (∀ pd, h.get_descriptor_by_name pid_name mfr = some pd →
        getPidDescriptor h pid_name mfr = some pd) ∧
    (∀ v, h.get_descriptor_by_name pid_name mfr = none →
        resolveParamValue pid_name = some v →
        getPidDescriptor h pid_name mfr =
          h.get_descriptor_by_value v mfr) ∧
    (getPidDescriptor h pid_name uid.manufacturer_id = none →
        PerformRequest h universe_id uid sub_device pid_name is_set
            inputs = RequestOutcome.unknown_pid pid_name ∧
        ∀ script, PerformRequestAndWait h universe_id uid sub_device
            pid_name is_set inputs script = (EXIT_USAGE, none)) := by
  refine ⟨?_, ?_, ?_⟩
  · intro pd hname
    simp [getPidDescriptor, hname]
  · intro v hname hv
    simp [getPidDescriptor, hname, hv]
  · intro hnone
    have h1 : PerformRequest h universe_id uid sub_device pid_name is_set
        inputs = RequestOutcome.unknown_pid pid_name := by
      simp [PerformRequest, hnone]
    exact ⟨h1, fun script => by simp [PerformRequestAndWait, h1]⟩

theorem c9_resolution_witness :
    getPidDescriptor hNamed "0x00f0" 2 =
      some { name := "named"
             value := 7
             get_request := some 0
             set_request := some 1
             get_response := some 2
             set_response := some 3 } ∧
    resolveParamValue "0x00f0" = some 0x00f0 ∧
    getPidDescriptor hTest "0x00f0" 2 =
      hTest.get_descriptor_by_value 0x00f0 2 ∧
    getPidDescriptor hNoPids "bogus" 2 = none ∧
    PerformRequest hNoPids 1 { manufacturer_id := 2, device_id := 3 } 0
        "bogus" false [] = RequestOutcome.unknown_pid "bogus" ∧
    PerformRequestAndWait hNoPids 1 { manufacturer_id := 2, device_id := 3 }
        0 "bogus" false [] [] = (EXIT_USAGE, none) := by
  have hpart1 := (c9_descriptor_resolution_order hNamed "0x00f0" 2 1
    { manufacturer_id := 2, device_id := 3 } 0 false []).1
    { name := "named"
      value := 7
      get_request := some 0
      set_request := some 1
      get_response := some 2
      set_response := some 3 } rfl
  have hpart2 := (c9_descriptor_resolution_order hTest "0x00f0" 2 1
    { manufacturer_id := 2, device_id := 3 } 0 false []).2.1
    0x00f0 rfl (by decide)
  have hpart3 := (c9_descriptor_resolution_order hNoPids "bogus" 2 1
    { manufacturer_id := 2, device_id := 3 } 0 false []).2.2 (by decide)
  exact ⟨hpart1, by decide, hpart2, by decide, hpart3.1, hpart3.2 []⟩

/-- C8: on an ACK-with-nack-reason response the driver prints the nack
report carrying the reject code (rendered in text by the external
`NackReasonToString`), then terminates; the remaining-message count of
the response is printed, immediately before termination, exactly when it
is non-zero. -/
theorem c8_nack_reason_then_terminate (h : PidHelper)
    (pending : PendingRequest) (rs : ResponseStatus) (d : List Nat)
    (rest : List (ResponseStatus × List Nat))
    (he : rs.error = "") (hc : rs.response_code = RDM_COMPLETED_OK)
    (ht : rs.response_type = RDM_NACK_REASON) :
    (runScript h (initState pending) ((rs, d) :: rest)).outputs =
      Output.nacked rs.nack_reason ::
        (if rs.message_count = 0 then []
         else [Output.messages_remaining rs.message_count]) ∧
    (runScript h (initState pending) ((rs, d) :: rest)).terminated = true ∧
    (runScript h (initState pending) ((rs, d) :: rest)).terminate_calls
      = 1 ∧
    (runScript h (initState pending) ((rs, d) :: rest)).issued = [] ∧
    (runScript h (initState pending) ((rs, d) :: rest)).consumed = 1 := by
  have hr := nack_actions h pending rs d he hc ht
  obtain ⟨h1, h2, h3, h4, h5, _⟩ :=
    runScript_terminal_fields h (initState pending) rs d _ rfl hr rest
  refine ⟨?_, h3, by rw [h2]; rfl, by rw [h1]; rfl, by rw [h4]; rfl⟩
  rw [h5]
  show Output.nacked rs.nack_reason :: PrintRemainingMessages
    rs.message_count = _
  rw [PrintRemainingMessages]

theorem c8_nack_witness :
    (nackResponse 6 2).error = "" ∧
    (runScript hTest
        (initState { universe_id := 1
                     uid := { manufacturer_id := 2, device_id := 3 }
                     sub_device := 0
                     pid_value := 42 })
        [(nackResponse 6 2, [])]).outputs =
      Output.nacked 6 ::
        (if (2 : Nat) = 0 then [] else [Output.messages_remaining 2]) ∧
    (runScript hTest
        (initState { universe_id := 1
                     uid := { manufacturer_id := 2, device_id := 3 }
                     sub_device := 0
                     pid_value := 42 })
        [(nackResponse 6 2, [])]).terminate_calls = 1 := by
  have hmain := c8_nack_reason_then_terminate hTest
    { universe_id := 1
      uid := { manufacturer_id := 2, device_id := 3 }
      sub_device := 0
      pid_value := 42 }
    (nackResponse 6 2) [] [] rfl rfl rfl
  exact ⟨rfl, hmain.1, hmain.2.2.1⟩

/-- C2: for a response script of N drain-cycle ACKs (each a completed
ACK with a parameter other than the pending one and a non-empty payload)
followed by one ACK carrying the pending parameter, a transaction that
consumes the whole script issues exactly N queued-message fetches before
the authoritative ack is processed (no `Terminate` during the drain), and
calls `Terminate` exactly once, when the authoritative ack is
processed. -/
theorem c2_drain_fetch_count (h : PidHelper) (pending : PendingRequest)
    (noise : List (ResponseStatus × List Nat)) (fr : ResponseStatus)
    (fdata : List Nat)
    (hn : ∀ r ∈ noise, noiseAck pending r)
    (he : fr.error = "") (hc : fr.response_code = RDM_COMPLETED_OK)
    (ht : fr.response_type = RDM_ACK)
    (hp : fr.pid_value = pending.pid_value)
    (hall : (runScript h (initState pending)
        (noise ++ [(fr, fdata)])).consumed = noise.length + 1) :
    (runScript h (initState pending)
        (noise ++ [(fr, fdata)])).issued.length = noise.length ∧
    (runScript h (initState pending)
        (noise ++ [(fr, fdata)])).terminate_calls = 1 ∧
    (runScript h (initState pending) noise).issued.length =
      noise.length ∧
    (runScript h (initState pending) noise).terminate_calls = 0 ∧
    (runScript h (initState pending) noise).terminated = false := by
  have hr := authoritative_actions h pending fr fdata he hc ht (Or.inl hp)
  by_cases hq : pending.pid_value = PID_QUEUED_MESSAGE
  · -- the pending request already asks for PID_QUEUED_MESSAGE: every
    -- drain-cycle ACK would itself be authoritative, so a run that
    -- consumes the whole script forces the drain to be empty
    cases noise with
    | nil =>
        obtain ⟨h1, h2, h3, h4, h5, h6⟩ := runScript_terminal_fields h
          (initState pending) fr fdata _ rfl hr []
        rw [List.nil_append]
        exact ⟨by rw [h1]; rfl, by rw [h2]; rfl, rfl, rfl, rfl⟩
    | cons r0 restn =>
        exfalso
        obtain ⟨rs0, d0⟩ := r0
        obtain ⟨he0, hc0, ht0, hp0, hd0⟩ :=
          hn (rs0, d0) (List.mem_cons_self _ _)
        have hr0 := authoritative_actions h pending rs0 d0 he0 hc0 ht0
          (Or.inr hq)
        obtain ⟨-, -, -, hcn0, -, -⟩ := runScript_terminal_fields h
          (initState pending) rs0 d0 _ rfl hr0 (restn ++ [(fr, fdata)])
        rw [List.cons_append, hcn0] at hall
        have : (initState pending).consumed = 0 := rfl
        rw [this] at hall
        simp at hall
  · have hnr := runScript_noise h pending noise hq (initState pending)
      rfl rfl hn
    have hs1t : (runScript h (initState pending) noise).terminated
        = false := by rw [hnr]; rfl
    have hs1p : (runScript h (initState pending) noise).pending
        = pending := runScript_pending h noise (initState pending)
    have hs1i : (runScript h (initState pending) noise).issued.length
        = noise.length := by rw [hnr]; simp [initState]
    have hs1c : (runScript h (initState pending) noise).terminate_calls
        = 0 := by rw [hnr]; rfl
    have hr2 : HandleResponse h
        (runScript h (initState pending) noise).pending fr fdata =
        terminalActions
          (HandleAckResponse h
            (runScript h (initState pending) noise).pending
            (runScript h (initState pending) noise).pending.uid.manufacturer_id
            fr.set_command fr.pid_value fdata ++
           PrintRemainingMessages fr.message_count) :=
      authoritative_actions h _ fr fdata he hc ht
        (Or.inl (by rw [hs1p]; exact hp))
    obtain ⟨h1, h2, -, -, -, -⟩ := runScript_terminal_fields h
      (runScript h (initState pending) noise) fr fdata _ hs1t hr2 []
    rw [runScript_append]
    refine ⟨?_, ?_, hs1i, hs1c, hs1t⟩
    · rw [h1]; exact hs1i
    · rw [h2, hs1c]

theorem c2_drain_witness :
    ((runScript hTest
        (initState { universe_id := 1
                     uid := { manufacturer_id := 2, device_id := 3 }
                     sub_device := 0
                     pid_value := 10 })
        ([(ackResponse 11 0, [1])] ++
          [(ackResponse 10 0, ([] : List Nat))])).consumed = 1 + 1) ∧
    (runScript hTest
        (initState { universe_id := 1
                     uid := { manufacturer_id := 2, device_id := 3 }
                     sub_device := 0
                     pid_value := 10 })
        ([(ackResponse 11 0, [1])] ++
          [(ackResponse 10 0, ([] : List Nat))])).issued.length = 1 ∧
    (runScript hTest
        (initState { universe_id := 1
                     uid := { manufacturer_id := 2, device_id := 3 }
                     sub_device := 0
                     pid_value := 10 })
        ([(ackResponse 11 0, [1])] ++
          [(ackResponse 10 0, ([] : List Nat))])).terminate_calls = 1 ∧
    (runScript hTest
        (initState { universe_id := 1
                     uid := { manufacturer_id := 2, device_id := 3 }
                     sub_device := 0
                     pid_value := 10 })
        [(ackResponse 11 0, [1])]).terminate_calls = 0 := by
  have hmain := c2_drain_fetch_count hTest
    { universe_id := 1
      uid := { manufacturer_id := 2, device_id := 3 }
      sub_device := 0
      pid_value := 10 }
    [(ackResponse 11 0, [1])] (ackResponse 10 0) []
    (fun r hr => by
      rw [List.mem_singleton] at hr
      subst hr
      exact ⟨rfl, rfl, rfl, by decide, by decide⟩)
    rfl rfl rfl rfl (by decide)
  exact ⟨by decide, hmain.1, hmain.2.1, hmain.2.2.2.1⟩

/-- C1 (counterexample): with an original request for parameter `0x00E0`
(not the queued-message parameter) and the response script
[`AckTimer(100)`, `Ack(PID_QUEUED_MESSAGE, [1])`], the driver issues a
second queued-message fetch instead of treating the second response as
authoritative: two fetches are on the wire, nothing was decoded or
printed, and the loop has not terminated — contradicting the claim that
exactly one fetch is issued and the second response is decoded and
printed. -/
theorem c1_counterexample :
    (runScript hTest
        (initState { universe_id := 1
                     uid := { manufacturer_id := 0x7a70, device_id := 1 }
                     sub_device := 0
                     pid_value := 0x00E0 })
        [(ackTimerResponse 100, []),
         (ackResponse PID_QUEUED_MESSAGE 0, [1])]).timers = [100] ∧
    (runScript hTest
        (initState { universe_id := 1
                     uid := { manufacturer_id := 0x7a70, device_id := 1 }
                     sub_device := 0
                     pid_value := 0x00E0 })
        [(ackTimerResponse 100, []),
         (ackResponse PID_QUEUED_MESSAGE 0, [1])]).issued.length = 2 ∧
    (runScript hTest
        (initState { universe_id := 1
                     uid := { manufacturer_id := 0x7a70, device_id := 1 }
                     sub_device := 0
                     pid_value := 0x00E0 })
        [(ackTimerResponse 100, []),
         (ackResponse PID_QUEUED_MESSAGE 0, [1])]).outputs = [] ∧
    (runScript hTest
        (initState { universe_id := 1
                     uid := { manufacturer_id := 0x7a70, device_id := 1 }
                     sub_device := 0
                     pid_value := 0x00E0 })
        [(ackTimerResponse 100, []),
         (ackResponse PID_QUEUED_MESSAGE 0, [1])]).terminated = false := by
  decide

/-- C1 (amended): when the originally requested parameter is itself the
queued-message parameter, the script [`AckTimer(d)`, then
`Ack(PID_QUEUED_MESSAGE, payload)`] makes the driver register one
one-shot delayed callback for `d`, issue exactly one queued-message fetch
when it fires, and treat the second response as authoritative — its
payload is decoded against the response schema and pretty-printed, no
further fetch is issued, and the loop terminates once.  (When the
original parameter differs from the queued-message parameter the code
instead issues another fetch, as the counterexample shows, because the
pending record still carries the original parameter.) -/
theorem c1_amended_queued_original (h : PidHelper)
    (pending : PendingRequest) (delay mc : Nat) (payload : List Nat)
    (pd : PidDescriptor) (sch : Nat) (m : List Nat)
    (hq : pending.pid_value = PID_QUEUED_MESSAGE)
    (hpd : h.get_descriptor_by_value PID_QUEUED_MESSAGE
        pending.uid.manufacturer_id = some pd)
    (hsch : pd.get_response = some sch)
    (hdec : h.deserialize_message sch payload = some m) :
    (runScript h (initState pending)
        [(ackTimerResponse delay, []),
         (ackResponse PID_QUEUED_MESSAGE mc, payload)]).timers = [delay] ∧
    (runScript h (initState pending)
        [(ackTimerResponse delay, []),
         (ackResponse PID_QUEUED_MESSAGE mc, payload)]).issued =
      [FetchQueuedMessage pending] ∧
    (runScript h (initState pending)
        [(ackTimerResponse delay, []),
         (ackResponse PID_QUEUED_MESSAGE mc, payload)]).outputs =
      Output.pretty_printed (h.pretty_print_message
          pending.uid.manufacturer_id false PID_QUEUED_MESSAGE m) ::
        PrintRemainingMessages mc ∧
    (runScript h (initState pending)
        [(ackTimerResponse delay, []),
         (ackResponse PID_QUEUED_MESSAGE mc, payload)]).terminated
      = true ∧
    (runScript h (initState pending)
        [(ackTimerResponse delay, []),
         (ackResponse PID_QUEUED_MESSAGE mc, payload)]).terminate_calls
      = 1 ∧
    (runScript h (initState pending)
        [(ackTimerResponse delay, []),
         (ackResponse PID_QUEUED_MESSAGE mc, payload)]).consumed = 2 := by
  have hack : HandleAckResponse h pending pending.uid.manufacturer_id
      false PID_QUEUED_MESSAGE payload =
      [Output.pretty_printed (h.pretty_print_message
        pending.uid.manufacturer_id false PID_QUEUED_MESSAGE m)] := by
    simp [HandleAckResponse, hpd, hsch, hdec]
  have hr2 : HandleResponse h pending (ackResponse PID_QUEUED_MESSAGE mc)
      payload = terminalActions
        (Output.pretty_printed (h.pretty_print_message
            pending.uid.manufacturer_id false PID_QUEUED_MESSAGE m) ::
          PrintRemainingMessages mc) := by
    rw [authoritative_actions h pending (ackResponse PID_QUEUED_MESSAGE mc)
      payload rfl rfl rfl (Or.inl (by rw [hq]; rfl))]
    simp only [ackResponse]
    rw [hack]
    rfl
  have hr1 := ack_timer_actions h pending (ackTimerResponse delay) []
    rfl rfl rfl
  have hrun : runScript h (initState pending)
      [(ackTimerResponse delay, []),
       (ackResponse PID_QUEUED_MESSAGE mc, payload)] =
      { pending := pending
        terminated := true
        terminate_calls := 1
        issued := [FetchQueuedMessage pending]
        timers := [delay]
        outputs := Output.pretty_printed (h.pretty_print_message
            pending.uid.manufacturer_id false PID_QUEUED_MESSAGE m) ::
          PrintRemainingMessages mc
        consumed := 2 } := by
    rw [runScript_cons h (initState pending) (ackTimerResponse delay) []
      [(ackResponse PID_QUEUED_MESSAGE mc, payload)] rfl]
    rw [show HandleResponse h (initState pending).pending
        (ackTimerResponse delay) [] =
        [Action.register_single_timeout (ackTimerResponse delay).ack_timer]
      from hr1]
    show runScript h
      { pending := pending
        terminated := false
        terminate_calls := 0
        issued := [FetchQueuedMessage pending]
        timers := [delay]
        outputs := []
        consumed := 1 }
      [(ackResponse PID_QUEUED_MESSAGE mc, payload)] = _
    rw [runScript_terminal_step h _ (ackResponse PID_QUEUED_MESSAGE mc)
      payload [] _ rfl hr2]
    rfl
  exact ⟨by rw [hrun], by rw [hrun], by rw [hrun], by rw [hrun],
    by rw [hrun], by rw [hrun]⟩

theorem c1_amended_witness :
    ((PID_QUEUED_MESSAGE : Nat) = PID_QUEUED_MESSAGE) ∧
    (runScript hTest
        (initState { universe_id := 1
                     uid := { manufacturer_id := 2, device_id := 3 }
                     sub_device := 0
                     pid_value := PID_QUEUED_MESSAGE })
        [(ackTimerResponse 100, []),
         (ackResponse PID_QUEUED_MESSAGE 0, [7])]).issued =
      [FetchQueuedMessage
        { universe_id := 1
          uid := { manufacturer_id := 2, device_id := 3 }
          sub_device := 0
          pid_value := PID_QUEUED_MESSAGE }] ∧
    (runScript hTest
        (initState { universe_id := 1
                     uid := { manufacturer_id := 2, device_id := 3 }
                     sub_device := 0
                     pid_value := PID_QUEUED_MESSAGE })
        [(ackTimerResponse 100, []),
         (ackResponse PID_QUEUED_MESSAGE 0, [7])]).outputs =
      Output.pretty_printed (hTest.pretty_print_message 2 false
          PID_QUEUED_MESSAGE [7]) :: PrintRemainingMessages 0 ∧
    (runScript hTest
        (initState { universe_id := 1
                     uid := { manufacturer_id := 2, device_id := 3 }
                     sub_device := 0
                     pid_value := PID_QUEUED_MESSAGE })
        [(ackTimerResponse 100, []),
         (ackResponse PID_QUEUED_MESSAGE 0, [7])]).terminate_calls = 1 := by
  have hmain := c1_amended_queued_original hTest
    { universe_id := 1
      uid := { manufacturer_id := 2, device_id := 3 }
      sub_device := 0
      pid_value := PID_QUEUED_MESSAGE } 100 0 [7]
    { name := "pid"
      value := PID_QUEUED_MESSAGE
      get_request := some 0
      set_request := some 1
      get_response := some 2
      set_response := some 3 } 2 [7] rfl rfl rfl rfl
  exact ⟨rfl, hmain.2.1, hmain.2.2.1, hmain.2.2.2.2.1⟩

/-- C3 (counterexample): a transaction that terminates because of a
transport error still makes `PerformRequestAndWait` return `EXIT_OK`,
the success status — not a distinct failure status as the claim
requires.  The run shown here prints the transport error and terminates,
yet the returned status equals the success status. -/
theorem c3_counterexample :
    (PerformRequestAndWait hTest 1 { manufacturer_id := 2, device_id := 3 }
        0 "42" false []
        [(transportErrorResponse "connection refused", [])]).fst
      = EXIT_OK ∧
    ((PerformRequestAndWait hTest 1 { manufacturer_id := 2, device_id := 3 }
        0 "42" false []
        [(transportErrorResponse "connection refused", [])]).snd.map
          TransState.outputs) =
      some [Output.transport_error "connection refused"] ∧
    ((PerformRequestAndWait hTest 1 { manufacturer_id := 2, device_id := 3 }
        0 "42" false []
        [(transportErrorResponse "connection refused", [])]).snd.map
          TransState.terminated) = some true := by
  decide

/-- C3 (amended): once the request has been submitted,
`PerformRequestAndWait` returns the success status `EXIT_OK` whatever the
response script contains — for device-reported protocol errors, nacks and
unknown response types as the claim states, but also for transport
errors: no distinct failure status is propagated. -/
theorem c3_amended_always_success (h : PidHelper) (universe_id : Nat)
    (uid : UID) (sub_device : Nat) (pid_name : String) (is_set : Bool)
    (inputs : List String) (req : RdmRequest) (pending : PendingRequest)
    (script : List (ResponseStatus × List Nat))
    (hsub : PerformRequest h universe_id uid sub_device pid_name is_set
        inputs = RequestOutcome.submitted req pending) :
    (PerformRequestAndWait h universe_id uid sub_device pid_name is_set
        inputs script).fst = EXIT_OK := by
  simp [PerformRequestAndWait, hsub]

theorem c3_amended_witness :
    PerformRequest hTest 1 { manufacturer_id := 2, device_id := 3 } 0
        "42" false [] =
      RequestOutcome.submitted
        { is_set := false
          universe_id := 1
          uid := { manufacturer_id := 2, device_id := 3 }
          sub_device := 0
          pid := 42
          param_data := [] }
        { universe_id := 1
          uid := { manufacturer_id := 2, device_id := 3 }
          sub_device := 0
          pid_value := 42 } ∧
    (PerformRequestAndWait hTest 1 { manufacturer_id := 2, device_id := 3 }
        0 "42" false []
        [(transportErrorResponse "connection refused", [])]).fst
      = EXIT_OK := by
  have hsub : PerformRequest hTest 1
      { manufacturer_id := 2, device_id := 3 } 0 "42" false [] =
      RequestOutcome.submitted
        { is_set := false
          universe_id := 1
          uid := { manufacturer_id := 2, device_id := 3 }
          sub_device := 0
          pid := 42
          param_data := [] }
        { universe_id := 1
          uid := { manufacturer_id := 2, device_id := 3 }
          sub_device := 0
          pid_value := 42 } := by decide
  exact ⟨hsub, c3_amended_always_success hTest 1
    { manufacturer_id := 2, device_id := 3 } 0 "42" false [] _ _
    [(transportErrorResponse "connection refused", [])] hsub⟩

end OlaRdm
